import Mathlib

/-!
Verification development for the Sidekick control loop
(`sidekick.py`, `sidekick_tool.py`, `app.py`).

The Python code wires a worker (actor) LLM, a tool-dispatch node and an
evaluator (critic) LLM into a small state graph.  We embed the graph
shallowly: LangChain messages become the inductive `Msg`; the LangGraph
state (`State` TypedDict) becomes the structure `GState`; the
`add_messages` reducer is list append; each node of the graph becomes a
Lean function from `GState` to `GState`, parametrised by oracles for the
external LLM / tool calls.  LangGraph persists only channels declared in
the state schema: the `State` TypedDict declares no `iterations` key, so
the `iterations` entries the code writes (worker's return, the seeded
turn state) are filtered out, and every `state.get("iterations") or 0`
read yields 0 — the embedding models that read as the `GState.iterations`
field, which no step function ever writes.  Python functions that can
raise are embedded as `Except`-valued functions.
-/

namespace Sidekick

/-- Tool-call request carried by an assistant message (name + arguments). -/
structure ToolCall where
  name : String
  args : String
  deriving DecidableEq

/-- LangChain conversation message: tagged union of system / human (user) /
assistant (AI) / tool-result, each carrying text content; an assistant
message additionally carries its pending tool-call requests. -/
inductive Msg
  | system (content : String)
  | human (content : String)
  | ai (content : String) (tool_calls : List ToolCall)
  | tool (content : String)
  deriving DecidableEq

/-- Text content of a message (`message.content` in the Python code). -/
def Msg.content : Msg → String
  | .system c => c
  | .human c => c
  | .ai c _ => c
  | .tool c => c

/-- Whether a message is a `SystemMessage` (`isinstance(message, SystemMessage)`). -/
def Msg.isSystem : Msg → Bool
  | .system _ => true
  | _ => false

/-- Graph state: the `State` TypedDict of `sidekick.py` (messages,
success_criteria, feedback_on_work, success_criteria_met,
user_input_needed, subtasks).  `add_messages` gives `messages` append
semantics.  The `iterations` field models the value that
`state.get("iterations") or 0` yields: the TypedDict declares no
`iterations` channel and LangGraph filters node updates and seeded inputs
down to schema keys, so the key is never present in the real state —
every read yields 0, no step function of this embedding writes the field,
and it is 0 in every reachable state. -/
structure GState where
  messages : List Msg
  success_criteria : String
  feedback_on_work : Option String
  success_criteria_met : Bool
  user_input_needed : Bool
  subtasks : Option (List String) := none
  iterations : Nat
  deriving DecidableEq

/-- Structured evaluator verdict (`EvaluatorOutput` pydantic model). -/
structure EvaluatorOutput where
  feedback : String
  success_criteria_met : Bool
  user_input_needed : Bool
  deriving DecidableEq

/-! ### Python string containment (`needle in haystack`, on `String`) -/

/-- Whether `pat` is a prefix of `l` (character lists). -/
def leadsWith : List Char → List Char → Bool
  | [], _ => true
  | _ :: _, [] => false
  | a :: pat, b :: l => a = b && leadsWith pat l

/-- Whether `pat` occurs contiguously inside `l` (character lists). -/
def occursIn (pat : List Char) : List Char → Bool
  | [] => leadsWith pat []
  | b :: l => leadsWith pat (b :: l) || occursIn pat l

/-- Python `needle in haystack` on strings: contiguous substring test. -/
def pyIn (needle haystack : String) : Bool :=
  occursIn needle.data haystack.data

/-- Python `raw_text.lower()`: character-wise lowercasing (the texts the
heuristic probes for are the ASCII words "please" and "clarify"). -/
def pyLower (s : String) : String :=
  ⟨s.data.map Char.toLower⟩

/-! ### Worker (actor) node — `Sidekick.worker`, sidekick.py lines 120-172 -/

/-- System-instruction text the worker builds: the fixed role description,
the current date-time, the success criterion, the clarification-question
convention, and — only when `feedback_on_work` is truthy (non-`None` and
non-empty) — the prior evaluator feedback as corrective context. -/
def systemText (now : String) (success_criteria : String)
    (feedback_on_work : Option String) : String :=
  let base :=
    "You are a helpful assistant that can use tools to complete tasks.\n" ++
    "You keep working on a task until either you have a question or clarification for the user, " ++
    "or the success criteria is met.\n" ++
    "You have many tools to help you, including tools to browse the internet, navigating and retrieving web pages.\n" ++
    "You have a tool to run python code, but note that you would need to include a print() statement " ++
    "if you wanted to receive output.\n" ++
    "The current date and time is " ++ now ++ "\n\n" ++
    "This is the success criteria:\n" ++
    success_criteria ++ "\n" ++
    "You should reply either with a question for the user about this assignment, or with your final response.\n" ++
    "If you have a question for the user, you need to reply by clearly stating your question. " ++
    "An example might be:\n\n" ++
    "Question: please clarify whether you want a summary or a detailed answer\n\n" ++
    "If you've finished, reply with the final answer, and don't ask a question; simply reply with the answer.\n"
  match feedback_on_work with
  | some f =>
      if f = "" then base
      else
        base ++
        ("\nPreviously you thought you completed the assignment, but your reply was rejected " ++
         "because the success criteria was not met.\n" ++
         "Here is the feedback on why this was rejected:\n" ++
         f ++ "\n" ++
         "With this feedback, please continue the assignment, ensuring that you meet the " ++
         "success criteria or have a question for the user.")
  | none => base

/-- Whether any message of the list is a system message (the worker's
`found_system_message` flag after its scan of `state["messages"]`). -/
def hasSystemMessage (ms : List Msg) : Bool :=
  ms.any Msg.isSystem

/-- In-place overwrite the worker's scan performs: every `SystemMessage` in
the list gets its `content` replaced by `txt`; other messages unchanged. -/
def overwriteSystems (txt : String) (ms : List Msg) : List Msg :=
  ms.map fun m => match m with
    | .system _ => .system txt
    | m => m

/-- Count of system messages in a message list. -/
def countSystem (ms : List Msg) : Nat :=
  ms.countP Msg.isSystem

/-- Prompt list the worker sends to the LLM on its no-system-message branch:
a fresh `SystemMessage` prepended to the conversation. -/
def workerPrompt (now : String) (s : GState) : List Msg :=
  Msg.system (systemText now s.success_criteria s.feedback_on_work) :: s.messages

/-- Update the worker node returns, faithful to the Python control flow: the
LLM invocation and the `iterations` increment sit inside the
`if not found_system_message:` branch, so when a system message is already
present the function falls through and returns `none` (Python `None`);
otherwise it returns the new assistant message and the incremented counter. -/
def worker (llm : List Msg → Msg) (now : String) (s : GState) :
    Option (Msg × Nat) :=
  if hasSystemMessage s.messages then none
  else some (llm (workerPrompt now s), s.iterations + 1)

/-- Effect of one worker-node execution on the graph state: the in-place
content overwrite of any existing system messages always happens (the
message objects are shared with the state), and when `worker` returns an
update, `add_messages` appends the returned assistant message; the
`iterations` entry of the returned dict is not a key of the `State`
schema, so LangGraph filters it out and it changes nothing.  A `none`
return updates nothing. -/
def workerStep (llm : List Msg → Msg) (now : String) (s : GState) : GState :=
  let txt := systemText now s.success_criteria s.feedback_on_work
  let mutated := overwriteSystems txt s.messages
  match worker llm now s with
  | none => { s with messages := mutated }
  | some (response, _iters) =>
      { s with messages := mutated ++ [response] }

/-- Edge router after the worker — `Sidekick.worker_router`, lines 175-180:
"tools" when the latest message carries one or more pending tool calls,
otherwise "evaluator". -/
def worker_router (s : GState) : String :=
  match s.messages.getLast? with
  | some (.ai _ (_ :: _)) => "tools"
  | _ => "evaluator"

/-! ### Critic (evaluator) node — `Sidekick.evaluator`, lines 193-269 -/

/-- Body of the rendering loop of `Sidekick.format_conversation`, lines
182-191: one line per user message ("User: …") and per assistant message
("Assistant: …", with the placeholder "[Tools use]" when the assistant
content is empty, Python `message.content or "[Tools use]"`); system and
tool messages contribute nothing. -/
def formatStep (conversation : String) (m : Msg) : String :=
  match m with
  | .human c => conversation ++ ("User: " ++ c ++ "\n")
  | .ai c _ =>
      conversation ++ ("Assistant: " ++ (if c = "" then "[Tools use]" else c) ++ "\n")
  | _ => conversation

/-- Messages the conversation rendering shows: user and assistant only. -/
def shownMsg : Msg → Bool
  | .human _ => true
  | .ai _ _ => true
  | _ => false

/-- Full conversation rendering: the header, folded over the messages with
`formatStep` (the body of the Python `for` loop). -/
def format_conversation (messages : List Msg) : String :=
  messages.foldl formatStep "Conversation history:\n\n"

/-- Outcome of the structured-output decode attempt: either a typed
`EvaluatorOutput`, or a failure together with the raw text obtained by
re-invoking the plain-text evaluator LLM on the same prompt. -/
inductive DecodeOutcome
  | ok (v : EvaluatorOutput)
  | failed (raw_text : String)
  deriving DecidableEq

/-- Fallback verdict the evaluator synthesizes when structured parsing
fails (lines 242-258): `feedback` is the raw text verbatim,
`success_criteria_met` is `False`, and `user_needed` is set by the
heuristic `"?" in raw_text and ("please" in lower or "clarify" in lower
or "?" in raw_text)`. -/
def fallbackVerdict (raw_text : String) : EvaluatorOutput :=
  let lower := pyLower raw_text
  let user_needed :=
    pyIn "?" raw_text &&
      (pyIn "please" lower || pyIn "clarify" lower || pyIn "?" raw_text)
  { feedback := raw_text
    success_criteria_met := false
    user_input_needed := user_needed }

/-- Verdict the evaluator ends up with: the structured decode when it
succeeds, the synthesized fallback otherwise. -/
def evaluatorVerdict : DecodeOutcome → EvaluatorOutput
  | .ok v => v
  | .failed raw_text => fallbackVerdict raw_text

/-- Effect of one evaluator-node execution on the graph state (lines
260-269): append the single synthetic assistant message
"Evaluator Feedback on this answer: {feedback}" (a role/content dict,
which `add_messages` coerces to an AI message with no tool calls) and set
`feedback_on_work`, `success_criteria_met`, `user_input_needed` from the
verdict. -/
def evaluatorStep (outcome : DecodeOutcome) (s : GState) : GState :=
  let v := evaluatorVerdict outcome
  { s with
    messages := s.messages ++
      [Msg.ai ("Evaluator Feedback on this answer: " ++ v.feedback) []]
    feedback_on_work := some v.feedback
    success_criteria_met := v.success_criteria_met
    user_input_needed := v.user_input_needed }

/-- Edge router after the evaluator — `Sidekick.route_based_on_evaluation`,
lines 271-282: "END" once the `state.get("iterations") or 0` read reaches
`max_iterations = 10`, or when the verdict set `success_criteria_met` or
`user_input_needed`; otherwise back to "worker".  In the deployed graph
the `iterations` key is never present (see `GState`), so the read is
always 0 and only the two flags ever produce "END". -/
def route_based_on_evaluation (s : GState) : String :=
  if 10 ≤ s.iterations then "END"
  else if s.success_criteria_met || s.user_input_needed then "END"
  else "worker"

/-! ### Graph driver — `Sidekick.build_graph`, lines 285-301

The compiled graph has nodes worker / tools / evaluator, the conditional
edge maps `{"tools": "tools", "evaluator": "evaluator"}` and
`{"worker": "worker", "END": END}`, the unconditional edge tools → worker,
and entry START → worker.  The external collaborators (the two LLM
channels and the tool implementations) are supplied as an `Oracle`. -/

/-- Nodes of the compiled graph, plus the terminal `END` vertex. -/
inductive GNode
  | worker
  | tools
  | evaluator
  | terminal
  deriving DecidableEq

/-- External nondeterminism of one turn: the worker LLM's reply to each
prompt (indexed by how many worker invocations happened before), the tool
executor, the structured-decode outcome of each evaluator invocation, and
the current date-time string. -/
structure Oracle where
  llm : Nat → List Msg → Msg
  toolExec : ToolCall → String
  decode : Nat → DecodeOutcome
  now : String

/-- One point of the graph execution: current node, graph state, and how
many worker-node / evaluator-node executions happened so far. -/
structure Config where
  node : GNode
  state : GState
  workerCalls : Nat
  evalCalls : Nat
  deriving DecidableEq

/-- Tool-dispatch node (`ToolNode(tools=self.tools)`): execute each pending
tool call of the latest assistant message and append one tool-result
message per call. -/
def toolsStep (toolExec : ToolCall → String) (s : GState) : GState :=
  match s.messages.getLast? with
  | some (.ai _ tool_calls) =>
      { s with messages :=
          s.messages ++ tool_calls.map fun tc => Msg.tool (toolExec tc) }
  | _ => s

/-- One superstep of the compiled graph: run the current node, then follow
the edge `build_graph` declared for it. -/
def stepConfig (o : Oracle) (c : Config) : Config :=
  match c.node with
  | .worker =>
      let s := workerStep (o.llm c.workerCalls) o.now c.state
      { node := if worker_router s = "tools" then .tools else .evaluator
        state := s
        workerCalls := c.workerCalls + 1
        evalCalls := c.evalCalls }
  | .tools =>
      { c with node := .worker, state := toolsStep o.toolExec c.state }
  | .evaluator =>
      let s := evaluatorStep (o.decode c.evalCalls) c.state
      { node := if route_based_on_evaluation s = "END" then .terminal else .worker
        state := s
        workerCalls := c.workerCalls
        evalCalls := c.evalCalls + 1 }
  | .terminal => c

/-- Run the graph for `fuel` supersteps (the terminal node is absorbing). -/
def runGraph (o : Oracle) : Nat → Config → Config
  | 0, c => c
  | fuel + 1, c => runGraph o fuel (stepConfig o c)

/-! ### Turn runner — `Sidekick.run_superstep`, lines 303-333 -/

/-- Role/content pair of the Gradio chat history the turn runner returns. -/
structure ChatTurn where
  role : String
  content : String
  deriving DecidableEq

/-- Fallback success criterion substituted when the caller supplies a falsy
one (`success_criteria or "The answer should be clear and accurate"`). -/
def fallbackCriteria : String := "The answer should be clear and accurate"

/-- State dict `run_superstep` passes to `graph.ainvoke`: the new user
message seeded into `messages`, the caller's success criterion (or the
fallback), and the per-turn fields reset (`feedback_on_work = None`, both
booleans `False`, `iterations = 0`).  The seeded `iterations` entry is
filtered out by the framework like every non-schema key, but a read of
the absent key also yields 0, so the field value 0 is exact. -/
def initialTurnState (message : String) (success_criteria : String) : GState :=
  { messages := [Msg.human message]
    success_criteria := if success_criteria = "" then fallbackCriteria else success_criteria
    feedback_on_work := none
    success_criteria_met := false
    user_input_needed := false
    subtasks := none
    iterations := 0 }

/-- Initial configuration of one turn: the graph enters at the worker node
(`add_edge(START, "worker")`) with no node executions counted yet. -/
def initialConfig (message : String) (success_criteria : String) : Config :=
  { node := .worker
    state := initialTurnState message success_criteria
    workerCalls := 0
    evalCalls := 0 }

/-- Turn runner: drive the graph on the seeded state, then return
`history + [user, reply, feedback]` where `reply` is the content of the
run's second-to-last message (`result["messages"][-2]`) and `feedback` the
content of its last (`result["messages"][-1]`).  The graph run is
abstracted as the function `graph` from seeded state to final state; the
Python negative indexing raises when fewer than two messages come back,
embedded as `none`. -/
def run_superstep (graph : GState → GState) (message : String)
    (success_criteria : String) (history : List ChatTurn) :
    Option (List ChatTurn) :=
  let result := graph (initialTurnState message success_criteria)
  match result.messages.dropLast.getLast?, result.messages.getLast? with
  | some reply, some feedback =>
      some (history ++
        [{ role := "user", content := message },
         { role := "assistant", content := reply.content },
         { role := "assistant", content := feedback.content }])
  | _, _ => none

/-! ### Session teardown — `Sidekick.cleanup`, lines 335-353, and
`free_resources`, app.py lines 24-30 -/

/-- Browser-automation handle.  Its `close` follows the external Playwright
contract the spec assumes: closing is idempotent and non-throwing, closing
an already-closed browser is a no-op. -/
structure BrowserH where
  isOpen : Bool
  deriving DecidableEq

/-- Close of the external browser handle: always succeeds, leaves a closed
browser (idempotent double-release per the collaborator contract). -/
def BrowserH.close (_ : BrowserH) : Except String BrowserH :=
  .ok { isOpen := false }

/-- Session-owned external resources: `self.browser` and `self.playwright`
are `None` before `setup()`; the playwright driver carries a running flag
and its `stop` is likewise idempotent and non-throwing. -/
structure Session where
  browser : Option BrowserH
  playwright : Option Bool
  deriving DecidableEq

/-- Stop of the external playwright driver: always succeeds, leaves a
stopped driver. -/
def playwrightStop (_ : Bool) : Except String Bool :=
  .ok false

/-- Which path `cleanup` took. -/
inductive CleanupPath
  | noBrowser
  | scheduledAsync
  | syncClose
  deriving DecidableEq

/-- Python `asyncio.get_running_loop()`: raises `RuntimeError` when no
event loop is running. -/
def getRunningLoop (loopRunning : Bool) : Except String Unit :=
  if loopRunning then .ok () else .error "no running event loop"

/-- Session teardown (`Sidekick.cleanup`): return immediately when no
browser handle is owned; otherwise close the browser and stop playwright,
scheduling the async close calls when an event loop is running and running
them synchronously (`asyncio.run`) when `get_running_loop` raised
`RuntimeError` (the only exception the code catches). -/
def cleanup (loopRunning : Bool) (s : Session) :
    Except String (CleanupPath × Session) :=
  match s.browser with
  | none => .ok (.noBrowser, s)
  | some b =>
      let path := match getRunningLoop loopRunning with
        | .ok _ => CleanupPath.scheduledAsync
        | .error _ => CleanupPath.syncClose
      match b.close with
      | .error e => .error e
      | .ok b1 =>
          match s.playwright with
          | none => .ok (path, { s with browser := some b1 })
          | some p =>
              match playwrightStop p with
              | .error e => .error e
              | .ok p1 => .ok (path, { browser := some b1, playwright := some p1 })

/-! ### Calendar collaborator — `sidekick_tool.py`, lines 84-128

The Google-API calls are external; their outcomes are supplied as a
`CalendarEnv`.  What matters for the embedding is which of those outcomes
each function converts to in-band text and which it lets escape as an
exception: in `create_calendar_event` only the `insert(...).execute()`
call sits inside the `try`, while `_get_calendar_service()` runs before
it, unprotected; `list_upcoming_events` has no `try` at all. -/

/-- Outcome of the `insert(...).execute()` call: the created event's
`htmlLink`, an `HttpError` with decoded content, or another exception. -/
inductive InsertOutcome
  | created (htmlLink : String)
  | httpError (content : String)
  | otherError (message : String)
  deriving DecidableEq

/-- Upcoming-event record: RFC3339 start (`dateTime` falling back to
`date`) and summary, as `list_upcoming_events` reads them. -/
structure EventItem where
  start : String
  summary : String
  deriving DecidableEq

/-- External Google-Calendar world: whether `_get_calendar_service()`
succeeds (credential loading raises otherwise, with the given message),
and the outcomes of the insert and list API calls. -/
structure CalendarEnv where
  serviceError : Option String
  insertOutcome : InsertOutcome
  listOutcome : Except String (List EventItem)

/-- Event creation (`create_calendar_event`): building the service can
raise into the caller (it runs before the `try`); a failing insert call is
caught and converted to error text ("Calendar API error: …" for an
`HttpError`, "Calendar API exception: …" otherwise); success returns
"Event created: …". -/
def create_calendar_event (env : CalendarEnv) (_summary _start_iso _end_iso
    _description : String) (_calendar_id : Option String) (_timezone : String) :
    Except String String :=
  match env.serviceError with
  | some e => .error e
  | none =>
      match env.insertOutcome with
      | .created link => .ok ("Event created: " ++ link)
      | .httpError content => .ok ("Calendar API error: " ++ content)
      | .otherError message => .ok ("Calendar API exception: " ++ message)

/-- Line rendering of one upcoming event (`f"{start} â€” {evt['summary']}"`,
separator as the source file spells it). -/
def eventLine (evt : EventItem) : String :=
  evt.start ++ " â€” " ++ evt.summary

/-- Event listing (`list_upcoming_events`): no exception handling anywhere,
so a service-construction failure or a failing list call raises into the
caller; otherwise "No upcoming events found." for an empty list, else the
newline-joined event lines. -/
def list_upcoming_events (env : CalendarEnv) (_calendar_id : Option String)
    (_max_results : Nat) : Except String String :=
  match env.serviceError with
  | some e => .error e
  | none =>
      match env.listOutcome with
      | .error e => .error e
      | .ok [] => .ok "No upcoming events found."
      | .ok evts => .ok (String.intercalate "\n" (evts.map eventLine))

/-! ### Concrete scenarios and auxiliary predicates used by the theorems -/

/-- Invariant of a turn under the run's oracle: the loop has not reached
`END`, the tools node is not entered, the `iterations` read stays 0 (the
counter write is filtered, see `GState`), and the persisted conversation
never holds a system message. -/
def C1NeverEnds (c : Config) : Prop :=
  c.node ≠ GNode.terminal
  ∧ c.node ≠ GNode.tools
  ∧ c.state.iterations = 0
  ∧ hasSystemMessage c.state.messages = false

/-- Worker LLM that always answers plainly, with no tool-call requests. -/
def c1Llm (_i : Nat) (_prompt : List Msg) : Msg :=
  Msg.ai "I am still working on the assignment" []

/-- Oracle of the runaway run: replies carry no tool calls and the critic
decodes fine but never reports success nor requests user input — the very
situation the iteration cap is meant to stop. -/
def c1Oracle : Oracle :=
  { llm := c1Llm
    toolExec := fun _ => ""
    decode := fun _ =>
      .ok { feedback := "The success criteria is not met yet"
            success_criteria_met := false
            user_input_needed := false }
    now := "2026-10-12 00:00:00" }

/-- Initial configuration of the runaway run. -/
def c1Init : Config :=
  initialConfig "What is the capital of France?" "a city name"

/-- The runaway run after 30 supersteps (15 worker / 15 evaluator
executions, still going). -/
def c1Run : Config :=
  runGraph c1Oracle 30 c1Init

/-- Worker LLM answering plainly, for the single-step scenarios. -/
def c2Llm (_prompt : List Msg) : Msg := Msg.ai "The answer is 4" []

/-- State whose conversation already holds a system message, as on any
re-entry the spec describes: here the worker's guard finds it. -/
def c2Input : GState :=
  { messages := [Msg.system "old instructions", Msg.human "What is 2+2?"]
    success_criteria := "a numeric answer"
    feedback_on_work := none
    success_criteria_met := false
    user_input_needed := false
    subtasks := none
    iterations := 3 }

/-- Worker LLM answering plainly, for the system-message-count scenario. -/
def c5Llm (_prompt : List Msg) : Msg := Msg.ai "4" []

/-- Fresh turn state with no system message in the conversation. -/
def c5Input : GState :=
  { messages := [Msg.human "What is 2+2?"]
    success_criteria := "a numeric answer"
    feedback_on_work := none
    success_criteria_met := false
    user_input_needed := false
    subtasks := none
    iterations := 0 }

/-- Conclusion of the turn-runner contract at given arguments: the seeded
state has the per-turn fields reset and the fallback criterion substituted,
and the returned history is the input history extended by exactly the user
message, the run's second-to-last message content and its last message
content. -/
def RunSuperstepSpec (graph : GState → GState) (message : String)
    (success_criteria : String) (history : List ChatTurn) : Prop :=
  (initialTurnState message success_criteria).feedback_on_work = none
  ∧ (initialTurnState message success_criteria).success_criteria_met = false
  ∧ (initialTurnState message success_criteria).user_input_needed = false
  ∧ (initialTurnState message success_criteria).iterations = 0
  ∧ (initialTurnState message success_criteria).success_criteria =
      (if success_criteria = "" then fallbackCriteria else success_criteria)
  ∧ ∃ reply feedback,
      (graph (initialTurnState message success_criteria)).messages.dropLast.getLast? = some reply
      ∧ (graph (initialTurnState message success_criteria)).messages.getLast? = some feedback
      ∧ run_superstep graph message success_criteria history =
          some (history ++
            [{ role := "user", content := message },
             { role := "assistant", content := reply.content },
             { role := "assistant", content := feedback.content }])

/-- Abstract graph run for the turn-runner witness: appends a final answer
and an evaluator-feedback message to the seeded conversation. -/
def c6Graph (s : GState) : GState :=
  { s with messages := s.messages ++
      [Msg.ai "4" [], Msg.ai "Evaluator Feedback on this answer: correct" []] }

/-- Calendar world whose list API call fails (for instance an HttpError on
an unknown calendar id) while credentials load fine. -/
def badCalendarEnv : CalendarEnv :=
  { serviceError := none
    insertOutcome := .created "link"
    listOutcome := .error "HttpError 404: calendar not found" }

/-! ## Helper lemmas -/

/-- Overwriting system-message contents is the identity on a conversation
that holds no system message. -/
theorem overwriteSystems_id (txt : String) (ms : List Msg)
    (h : hasSystemMessage ms = false) : overwriteSystems txt ms = ms := by
  induction ms with
  | nil => rfl
  | cons m ms ih =>
      rw [hasSystemMessage, List.any_cons, Bool.or_eq_false_iff] at h
      cases m with
      | system c => simp [Msg.isSystem] at h
      | human c => simp [overwriteSystems] at ih ⊢; exact ih h.2
      | ai c tcs => simp [overwriteSystems] at ih ⊢; exact ih h.2
      | tool c => simp [overwriteSystems] at ih ⊢; exact ih h.2

/-- Overwriting system-message contents preserves the count of system
messages. -/
theorem countSystem_overwriteSystems (txt : String) (ms : List Msg) :
    countSystem (overwriteSystems txt ms) = countSystem ms := by
  induction ms with
  | nil => rfl
  | cons m ms ih =>
      cases m <;>
        simp [overwriteSystems, countSystem, List.countP_cons, Msg.isSystem] at ih ⊢ <;>
        exact ih

/-- Counting system messages distributes over append. -/
theorem countSystem_append (a b : List Msg) :
    countSystem (a ++ b) = countSystem a + countSystem b := by
  simp [countSystem, List.countP_append]

/-- Every system message left after the overwrite carries the new text. -/
theorem mem_overwriteSystems (txt : String) (ms : List Msg) :
    ∀ m ∈ overwriteSystems txt ms, m.isSystem = true → m = Msg.system txt := by
  induction ms with
  | nil => intro m hm; simp [overwriteSystems] at hm
  | cons m₀ ms ih =>
      intro m hm hsys
      rw [overwriteSystems, List.map_cons] at hm
      rcases List.mem_cons.mp hm with h | h
      · cases m₀ <;> simp_all [Msg.isSystem]
      · exact ih m (by rw [overwriteSystems]; exact h) hsys

/-- Appending a non-system message keeps a conversation system-free. -/
theorem hasSystemMessage_append (ms : List Msg) (m : Msg)
    (h : hasSystemMessage ms = false) (hm : m.isSystem = false) :
    hasSystemMessage (ms ++ [m]) = false := by
  unfold hasSystemMessage at h ⊢
  rw [List.any_append, h, Bool.false_or]
  simp [hm]

/-- Routing after the worker, as a predicate on the latest message: "tools"
exactly when it is an assistant message with at least one pending tool
call. -/
theorem worker_router_tools_iff (s : GState) :
    worker_router s = "tools" ↔
      ∃ content tc tcs, s.messages.getLast? = some (Msg.ai content (tc :: tcs)) := by
  unfold worker_router
  cases h : s.messages.getLast? with
  | none => simp
  | some m =>
      cases m with
      | ai content tcs => cases tcs <;> simp
      | system c => simp
      | human c => simp
      | tool c => simp

/-- Routing after the worker: the only other target is "evaluator". -/
theorem worker_router_evaluator_iff (s : GState) :
    worker_router s = "evaluator" ↔
      ¬ ∃ content tc tcs, s.messages.getLast? = some (Msg.ai content (tc :: tcs)) := by
  rw [← worker_router_tools_iff]
  unfold worker_router
  cases h : s.messages.getLast? with
  | none => simp
  | some m =>
      cases m with
      | ai content tcs => cases tcs <;> simp
      | system c => simp
      | human c => simp
      | tool c => simp

/-- Routing after the evaluator, as a predicate on the state: "END" exactly
when the cap is reached or a termination flag is set. -/
theorem route_end_iff (s : GState) :
    route_based_on_evaluation s = "END" ↔
      (10 ≤ s.iterations ∨ s.success_criteria_met = true ∨ s.user_input_needed = true) := by
  unfold route_based_on_evaluation
  by_cases h1 : 10 ≤ s.iterations
  · simp [h1]
  · cases h2 : s.success_criteria_met <;> cases h3 : s.user_input_needed <;> simp [h1, h2, h3]

/-- Routing after the evaluator: the only other target is "worker". -/
theorem route_worker_iff (s : GState) :
    route_based_on_evaluation s = "worker" ↔
      ¬ (10 ≤ s.iterations ∨ s.success_criteria_met = true ∨ s.user_input_needed = true) := by
  rw [← route_end_iff]
  unfold route_based_on_evaluation
  by_cases h1 : 10 ≤ s.iterations
  · simp [h1]
  · cases h2 : s.success_criteria_met <;> cases h3 : s.user_input_needed <;> simp [h1, h2, h3]

/-! ## Claim theorems -/

/-- Claim C4: the loop controller's routing is exactly as specified — from
WORKER to TOOLS iff the latest message carries one or more pending
tool-call requests and otherwise to EVALUATOR; from TOOLS always back to
WORKER (never to the critic); from EVALUATOR to END iff `iterations ≥ 10`
or `success_criteria_met` or `user_input_needed`, and otherwise back to
WORKER. -/
theorem C4_routing (s : GState) (o : Oracle) (c : Config) :
    (worker_router s = "tools" ↔
      ∃ content tc tcs, s.messages.getLast? = some (Msg.ai content (tc :: tcs)))
    ∧ (worker_router s = "evaluator" ↔
      ¬ ∃ content tc tcs, s.messages.getLast? = some (Msg.ai content (tc :: tcs)))
    ∧ (c.node = GNode.tools → (stepConfig o c).node = GNode.worker)
    ∧ (route_based_on_evaluation s = "END" ↔
      (10 ≤ s.iterations ∨ s.success_criteria_met = true ∨ s.user_input_needed = true))
    ∧ (route_based_on_evaluation s = "worker" ↔
      ¬ (10 ≤ s.iterations ∨ s.success_criteria_met = true ∨ s.user_input_needed = true))
    ∧ (c.node = GNode.worker →
        (stepConfig o c).node = GNode.tools ∨ (stepConfig o c).node = GNode.evaluator)
    ∧ (c.node = GNode.evaluator →
        (stepConfig o c).node = GNode.terminal ∨ (stepConfig o c).node = GNode.worker) := by
  refine ⟨worker_router_tools_iff s, worker_router_evaluator_iff s, ?_,
    route_end_iff s, route_worker_iff s, ?_, ?_⟩
  · intro h
    rcases c with ⟨node, st, wc, ec⟩
    cases node <;> simp_all [stepConfig]
  · intro h
    rcases c with ⟨node, st, wc, ec⟩
    cases node <;> simp_all [stepConfig]
    exact em _
  · intro h
    rcases c with ⟨node, st, wc, ec⟩
    cases node <;> simp_all [stepConfig]
    exact em _

/-- Claim C7: every evaluator invocation appends exactly one synthetic
assistant message, whose content is "Evaluator Feedback on this answer: "
followed by the verdict's feedback, and copies the verdict's three fields
into the state. -/
theorem C7_evaluator_append (s : GState) (outcome : DecodeOutcome) :
    (evaluatorStep outcome s).messages =
      s.messages ++
        [Msg.ai ("Evaluator Feedback on this answer: " ++
          (evaluatorVerdict outcome).feedback) []]
    ∧ (evaluatorStep outcome s).messages.length = s.messages.length + 1
    ∧ (evaluatorStep outcome s).feedback_on_work = some (evaluatorVerdict outcome).feedback
    ∧ (evaluatorStep outcome s).success_criteria_met = (evaluatorVerdict outcome).success_criteria_met
    ∧ (evaluatorStep outcome s).user_input_needed = (evaluatorVerdict outcome).user_input_needed := by
  refine ⟨rfl, ?_, rfl, rfl, rfl⟩
  simp [evaluatorStep]

/-- Claim C10: the conversation text shown to the critic contains only user
and assistant messages — `format_conversation` is insensitive to system
and tool-result messages (dropping them changes nothing), renders an
assistant message with empty content as the placeholder "[Tools use]", and
renders user and non-empty assistant messages as their text. -/
theorem C10_format_conversation (ms : List Msg) (txt : String) (tcs : List ToolCall) :
    format_conversation ms = format_conversation (ms.filter shownMsg)
    ∧ format_conversation (ms ++ [Msg.system txt]) = format_conversation ms
    ∧ format_conversation (ms ++ [Msg.tool txt]) = format_conversation ms
    ∧ format_conversation (ms ++ [Msg.ai "" tcs]) =
        format_conversation ms ++ ("Assistant: " ++ "[Tools use]" ++ "\n")
    ∧ format_conversation (ms ++ [Msg.human txt]) =
        format_conversation ms ++ ("User: " ++ txt ++ "\n")
    ∧ (txt = "" → format_conversation (ms ++ [Msg.ai txt tcs]) =
        format_conversation ms ++ ("Assistant: " ++ "[Tools use]" ++ "\n"))
    ∧ (txt ≠ "" → format_conversation (ms ++ [Msg.ai txt tcs]) =
        format_conversation ms ++ ("Assistant: " ++ txt ++ "\n")) := by
  have filt : ∀ (l : List Msg) (init : String),
      l.foldl formatStep init = (l.filter shownMsg).foldl formatStep init := by
    intro l
    induction l with
    | nil => intro init; rfl
    | cons m l ih =>
        intro init
        cases m <;> simp [shownMsg, formatStep, List.filter] <;> exact ih _
  refine ⟨filt ms _, ?_, ?_, ?_, ?_, ?_, ?_⟩
  · simp [format_conversation, List.foldl_append, formatStep]
  · simp [format_conversation, List.foldl_append, formatStep]
  · simp [format_conversation, List.foldl_append, formatStep]
  · simp [format_conversation, List.foldl_append, formatStep]
  · intro h; simp [format_conversation, List.foldl_append, formatStep, h]
  · intro h; simp [format_conversation, List.foldl_append, formatStep, h]

/-- Claim C3 counterexample: on the raw text "Is the answer correct?" —
which contains a question mark but neither cue word "please" nor
"clarify" — the claim predicts `user_input_needed = false`, yet the
fallback sets it to `true`: the heuristic's disjunction repeats the
question-mark test, so the cue words are never actually required. -/
theorem C3_counterexample :
    (evaluatorVerdict (.failed "Is the answer correct?")).user_input_needed = true
    ∧ pyIn "please" (pyLower "Is the answer correct?") = false
    ∧ pyIn "clarify" (pyLower "Is the answer correct?") = false
    ∧ pyIn "?" "Is the answer correct?" = true := by
  refine ⟨?_, ?_, ?_, ?_⟩ <;> decide

/-- Claim C3 (amended): whenever the structured decode fails, the evaluator
synthesizes — without ever throwing — a verdict whose feedback is the raw
model text verbatim and whose `success_criteria_met` is always `false`;
`user_input_needed` is `true` exactly when the raw text contains a
question mark (the cue-word clause of the heuristic is vacuous, because
its disjunction also accepts the question-mark test itself). -/
theorem C3_fallback (raw_text : String) :
    evaluatorVerdict (.failed raw_text) = fallbackVerdict raw_text
    ∧ (fallbackVerdict raw_text).feedback = raw_text
    ∧ (fallbackVerdict raw_text).success_criteria_met = false
    ∧ (fallbackVerdict raw_text).user_input_needed = pyIn "?" raw_text := by
  refine ⟨rfl, rfl, rfl, ?_⟩
  unfold fallbackVerdict
  cases h : pyIn "?" raw_text <;> simp [h]

/-- Claim C5 counterexample: on a fresh turn the conversation holds no
system message, and after the worker entry the persisted conversation
still holds none — not exactly one.  The worker prepends the system
message only to the local prompt list it sends to the LLM; the update it
returns carries just the assistant reply, which `add_messages` appends, so
the prepended system message never reaches the stored conversation. -/
theorem C5_counterexample :
    countSystem ((workerStep c5Llm "2026-10-12 00:00:00" c5Input).messages) = 0
    ∧ ¬ countSystem ((workerStep c5Llm "2026-10-12 00:00:00" c5Input).messages) = 1 := by
  refine ⟨?_, ?_⟩ <;> decide

/-- Claim C5 (amended): what the worker actually guarantees about system
messages.  When the conversation holds none, the prompt list sent to the
LLM gets exactly one, prepended at the front — but the persisted
conversation's system-message count is unchanged by the worker step (so it
stays at zero); when system messages are already present they are
overwritten in place (never duplicated): every system message in the
post-state carries the freshly built instruction text. -/
theorem C5_system_message (llm : List Msg → Msg) (now : String) (s : GState)
    (hllm : ∀ prompt, (llm prompt).isSystem = false) :
    (hasSystemMessage s.messages = false →
      countSystem (workerPrompt now s) = 1
      ∧ (workerPrompt now s).head? =
          some (Msg.system (systemText now s.success_criteria s.feedback_on_work)))
    ∧ countSystem ((workerStep llm now s).messages) = countSystem s.messages
    ∧ (∀ m ∈ (workerStep llm now s).messages, m.isSystem = true →
        m = Msg.system (systemText now s.success_criteria s.feedback_on_work)) := by
  refine ⟨?_, ?_, ?_⟩
  · intro h
    constructor
    · rw [workerPrompt, countSystem, List.countP_cons]
      have h0 : s.messages.countP Msg.isSystem = 0 := by
        rw [List.countP_eq_zero]
        intro m hm
        unfold hasSystemMessage at h
        have := List.any_eq_false.mp h m hm
        simpa using this
      simp [h0, Msg.isSystem, countSystem]
    · rfl
  · unfold workerStep worker
    cases h : hasSystemMessage s.messages with
    | true => simp [h, countSystem_overwriteSystems]
    | false =>
        simp only [h, Bool.false_eq_true, if_false]
        rw [countSystem_append, countSystem_overwriteSystems]
        simp [countSystem, List.countP_cons, hllm]
  · intro m hm hsys
    unfold workerStep worker at hm
    cases h : hasSystemMessage s.messages with
    | true =>
        simp only [h, if_true] at hm
        exact mem_overwriteSystems _ _ m hm hsys
    | false =>
        simp only [h, Bool.false_eq_true, if_false] at hm
        rcases List.mem_append.mp hm with h1 | h1
        · exact mem_overwriteSystems _ _ m h1 hsys
        · rcases List.mem_singleton.mp h1 with rfl
          rw [hllm] at hsys
          cases hsys

/-- Claim C5 witness: the amended statement applied to the fresh-turn
scenario with a plainly answering LLM. -/
theorem C5_system_message_witness :
    (∀ prompt, (c5Llm prompt).isSystem = false)
    ∧ ((hasSystemMessage c5Input.messages = false →
        countSystem (workerPrompt "2026-10-12 00:00:00" c5Input) = 1
        ∧ (workerPrompt "2026-10-12 00:00:00" c5Input).head? =
            some (Msg.system (systemText "2026-10-12 00:00:00"
              c5Input.success_criteria c5Input.feedback_on_work)))
      ∧ countSystem ((workerStep c5Llm "2026-10-12 00:00:00" c5Input).messages) =
          countSystem c5Input.messages
      ∧ (∀ m ∈ (workerStep c5Llm "2026-10-12 00:00:00" c5Input).messages,
          m.isSystem = true →
          m = Msg.system (systemText "2026-10-12 00:00:00"
            c5Input.success_criteria c5Input.feedback_on_work))) :=
  ⟨fun _ => rfl,
   C5_system_message c5Llm "2026-10-12 00:00:00" c5Input (fun _ => rfl)⟩

/-- Claim C2: behavior of the worker at the failing input — a state whose
conversation already holds a system message.  The Python function reaches
its fall-through `None` return: no LLM invocation happens, no assistant
message is produced, and the iterations counter is not incremented,
because the invocation and the increment sit inside the
no-system-message-found branch.  This contradicts the claimed (and
spec-intended) unconditional invocation. -/
theorem C2_worker_skips_invocation :
    worker c2Llm "2026-10-12 00:00:00" c2Input = none
    ∧ (workerStep c2Llm "2026-10-12 00:00:00" c2Input).iterations = c2Input.iterations
    ∧ (workerStep c2Llm "2026-10-12 00:00:00" c2Input).messages.length =
        c2Input.messages.length
    ∧ hasSystemMessage c2Input.messages = true := by
  refine ⟨?_, ?_, ?_, ?_⟩ <;> decide

/-- Claim C6: the turn runner resets the per-turn fields
(`feedback_on_work = None`, both booleans false, `iterations = 0`),
substitutes the fixed fallback string for an absent success criterion, and
returns the input history extended by exactly three entries — the user
message, the content of the run's second-to-last message, and the content
of its last message. -/
theorem C6_run_superstep (graph : GState → GState) (message : String)
    (success_criteria : String) (history : List ChatTurn)
    (h : 2 ≤ (graph (initialTurnState message success_criteria)).messages.length) :
    RunSuperstepSpec graph message success_criteria history := by
  refine ⟨rfl, rfl, rfl, rfl, rfl, ?_⟩
  have h1 : (graph (initialTurnState message success_criteria)).messages.getLast?.isSome := by
    rw [List.getLast?_isSome]
    intro hnil
    rw [hnil] at h
    simp at h
  have h2 : (graph (initialTurnState message success_criteria)).messages.dropLast.getLast?.isSome := by
    rw [List.getLast?_isSome]
    intro hnil
    have hlen := congrArg List.length hnil
    rw [List.length_dropLast] at hlen
    simp at hlen
    omega
  rcases Option.isSome_iff_exists.mp h2 with ⟨reply, hreply⟩
  rcases Option.isSome_iff_exists.mp h1 with ⟨feedback, hfeedback⟩
  refine ⟨reply, feedback, hreply, hfeedback, ?_⟩
  unfold run_superstep
  simp [hreply, hfeedback]

/-- Claim C6 witness: the turn-runner contract applied to a concrete run
that appends a final answer and an evaluator-feedback message. -/
theorem C6_run_superstep_witness :
    2 ≤ (c6Graph (initialTurnState "What is 2+2?" "")).messages.length
    ∧ RunSuperstepSpec c6Graph "What is 2+2?" "" [] :=
  ⟨by decide, C6_run_superstep c6Graph "What is 2+2?" "" [] (by decide)⟩

/-- Claim C8: session teardown is idempotent and non-throwing — `cleanup`
never returns an error, a second invocation on the resulting session again
returns no error and leaves the session unchanged (double-release of the
browser handle is a no-op), and the browser is released via the scheduled
asynchronous path exactly when an event loop is running and via the
synchronous path when none is. -/
theorem C8_cleanup_idempotent (l1 l2 : Bool) (s : Session) :
    ∃ path final,
      cleanup l1 s = .ok (path, final)
      ∧ cleanup l2 final =
          .ok ((if final.browser.isSome then
                  (if l2 then CleanupPath.scheduledAsync else CleanupPath.syncClose)
                else CleanupPath.noBrowser), final)
      ∧ (s.browser = none → path = CleanupPath.noBrowser ∧ final = s)
      ∧ (s.browser.isSome = true →
          path = (if l1 then CleanupPath.scheduledAsync else CleanupPath.syncClose)) := by
  rcases s with ⟨ob, op⟩
  rcases ob with _ | b <;> rcases op with _ | p <;> cases l1 <;> cases l2 <;>
    refine ⟨_, _, rfl, rfl, ?_, ?_⟩ <;> simp [cleanup, getRunningLoop]

/-- Claim C9 counterexample: `list_upcoming_events` has no exception
handling, so a failing Google-API list call raises into the caller instead
of being returned as human-readable error text. -/
theorem C9_counterexample :
    list_upcoming_events badCalendarEnv none 5 =
      .error "HttpError 404: calendar not found" := rfl

/-- Claim C9 (amended): `create_calendar_event` converts any failure of
the insert API call to in-band text and returns success text otherwise,
but an exception while building the calendar service (which runs before
its `try` block) propagates to the caller; `list_upcoming_events` catches
nothing — both a service-construction failure and a failing list call
raise into the caller. -/
theorem C9_calendar_errors (env : CalendarEnv)
    (summary start_iso end_iso description timezone : String)
    (calendar_id : Option String) (max_results : Nat) :
    (env.serviceError = none →
      ∃ text, create_calendar_event env summary start_iso end_iso description
        calendar_id timezone = .ok text)
    ∧ (∀ e, env.serviceError = some e →
        create_calendar_event env summary start_iso end_iso description
          calendar_id timezone = .error e
        ∧ list_upcoming_events env calendar_id max_results = .error e)
    ∧ (∀ e, env.serviceError = none → env.listOutcome = .error e →
        list_upcoming_events env calendar_id max_results = .error e) := by
  rcases env with ⟨se, ins, lst⟩
  refine ⟨?_, ?_, ?_⟩
  · intro h
    cases h
    cases ins with
    | created link => exact ⟨_, rfl⟩
    | httpError content => exact ⟨_, rfl⟩
    | otherError message => exact ⟨_, rfl⟩
  · intro e he
    cases he
    exact ⟨rfl, rfl⟩
  · intro e he hl
    cases he
    cases hl
    rfl

/-- Worker step on a system-free conversation: the LLM is invoked on the
prompt and its reply is appended (the returned counter write is filtered
out by the framework). -/
theorem workerStep_no_system (llm : List Msg → Msg) (now : String) (s : GState)
    (h : hasSystemMessage s.messages = false) :
    workerStep llm now s =
      { s with messages := s.messages ++ [llm (workerPrompt now s)] } := by
  unfold workerStep worker
  simp only [h, Bool.false_eq_true, if_false]
  rw [overwriteSystems_id _ _ h]

/-- One superstep of the runaway run preserves its invariant: the worker
always routes to the evaluator (plain replies), the evaluator always
routes back to the worker (flags false, `iterations` read 0 forever), and
`END` is never reached. -/
theorem c1never_step (c : Config) (hc : C1NeverEnds c) :
    C1NeverEnds (stepConfig c1Oracle c) := by
  obtain ⟨hterm, htools, hit, hsys⟩ := hc
  rcases c with ⟨node, st, wc, ec⟩
  dsimp only at hterm htools hit hsys
  cases node with
  | worker =>
      simp only [stepConfig]
      rw [workerStep_no_system (c1Oracle.llm wc) c1Oracle.now st hsys]
      have hr : worker_router
          { st with messages :=
              st.messages ++ [c1Oracle.llm wc (workerPrompt c1Oracle.now st)] } =
          "evaluator" := by
        unfold worker_router
        simp [List.getLast?_concat, c1Oracle, c1Llm]
      rw [hr, if_neg (by decide)]
      refine ⟨?_, ?_, ?_, ?_⟩ <;> dsimp only
      · intro hx; cases hx
      · intro hx; cases hx
      · exact hit
      · exact hasSystemMessage_append _ _ hsys rfl
  | tools => exact absurd rfl htools
  | evaluator =>
      simp only [stepConfig]
      have hroute :
          route_based_on_evaluation (evaluatorStep (c1Oracle.decode ec) st) = "worker" := by
        unfold route_based_on_evaluation
        have hi : (evaluatorStep (c1Oracle.decode ec) st).iterations = 0 := hit
        rw [hi, if_neg (by omega)]
        simp [evaluatorStep, evaluatorVerdict, c1Oracle]
      rw [hroute, if_neg (by decide)]
      refine ⟨?_, ?_, ?_, ?_⟩ <;> dsimp only
      · intro hx; cases hx
      · intro hx; cases hx
      · exact hit
      · exact hasSystemMessage_append _ _ hsys rfl
  | terminal => exact absurd rfl hterm

/-- The runaway-run invariant holds along the whole run. -/
theorem c1never_run (fuel : Nat) (c : Config) (hc : C1NeverEnds c) :
    C1NeverEnds (runGraph c1Oracle fuel c) := by
  induction fuel generalizing c with
  | zero => exact hc
  | succ n ih => exact ih _ (c1never_step c hc)

/-- Claim C1: behavior at the failing input — a turn whose critic never
reports `success_criteria_met` or `user_input_needed` and whose actor
replies carry no tool calls.  The `State` schema declares no `iterations`
key, so the worker's counter write is filtered out and every read yields
0: the cap of `route_based_on_evaluation` never fires, the loop never
reaches `END` however much fuel it is given, and after 30 supersteps the
actor has already been invoked 15 times — past the claimed bound of 10 —
with the router still sending control back to the worker. -/
theorem C1_cap_never_fires :
    (∀ fuel, (runGraph c1Oracle fuel c1Init).node ≠ GNode.terminal
      ∧ (runGraph c1Oracle fuel c1Init).state.iterations = 0)
    ∧ c1Run.workerCalls = 15
    ∧ ¬ c1Run.workerCalls ≤ 10
    ∧ route_based_on_evaluation c1Run.state = "worker" := by
  have h0 : C1NeverEnds c1Init := by
    refine ⟨?_, ?_, rfl, rfl⟩ <;> dsimp only [c1Init, initialConfig] <;>
      intro hx <;> cases hx
  refine ⟨?_, ?_, ?_, ?_⟩
  · intro fuel
    obtain ⟨hterm, _, hit, _⟩ := c1never_run fuel c1Init h0
    exact ⟨hterm, hit⟩
  · decide
  · decide
  · decide

end Sidekick
